import Mathlib

/-!
Verification of the `NetworkManager` facade in
`SoftLayer/managers/network.py` (softlayer-python).

The Python methods are shallowly embedded as pure Lean functions.  The
remote RPC client is a black box, so each embedded method takes the
remote responses it consumes as explicit arguments and returns both its
Python return value and the list of remote calls it issued.  Python
runtime failures (NameError on an undefined variable, KeyError and
IndexError on missing keys/indices) are modelled with `Except String`.
-/

set_option autoImplicit false

namespace SLNetwork

/-- A Python value as it appears in filter structures: an int or a string. -/
inductive PyVal where
  | int (n : Int)
  | str (s : String)
  deriving Repr, DecidableEq

/-- Python `str(...)` applied to an optional integer argument
(`quantity` may be `None`, and `str(None) = "None"`). -/
def pyStr : Option Int → String
  | Option.none => "None"
  | Option.some n => toString n

/-- Is `pre` a prefix of the character list `l`? -/
def isPrefixChars : List Char → List Char → Bool
  | [], _ => true
  | _ :: _, [] => false
  | a :: pre, b :: l => a = b && isPrefixChars pre l

/-- Does the character list `l` contain `needle` as a contiguous sublist?
(Python `needle in l`.) -/
def containsChars (needle : List Char) : List Char → Bool
  | [] => needle.isEmpty
  | b :: l => isPrefixChars needle (b :: l) || containsChars needle l

/-- Python substring test `needle in hay` on strings. -/
def strContains (needle hay : String) : Bool :=
  containsChars needle.toList hay.toList

/-- One catalog item as returned by `Product_Package.getItems`:
`item.get('itemCategory', \x7b\x7d).get('categoryCode')` may be absent,
`item['capacity']` is the string the API reports, `item['description']`
is free text, and `item['prices']` is the list of price ids. -/
structure Item where
  categoryCode : Option String
  capacity : String
  description : String
  prices : List Int
  deriving Repr, DecidableEq

/-- The category code, (possibly overridden) quantity and `desc` variable
chosen by the `if version == 4: ... else: ...` ladder at the top of
`add_subnet`.  `desc` is `Option.none` exactly when the Python variable
`desc` is left undefined. -/
def subnetParams (ty : String) (version : Nat) (quantity : Option Int) :
    String × Option Int × Option String :=
  if version = 4 then
    if ty = "global" then ("global_ipv4", Option.some 0, Option.none)
    else if ty = "public" then ("sov_sec_ip_addresses_pub", quantity, Option.none)
    else ("sov_sec_ip_addresses_priv", quantity, Option.none)
  else
    if ty = "global" then ("global_ipv6", Option.some 0, Option.some "Global")
    else if ty = "public" then ("static_ipv6_addresses", quantity, Option.some "Portable")
    else ("static_ipv6_addresses", quantity, Option.none)

/-- The inner guard `version == 4 or (version == 6 and desc in
item['description'])`, with Python short-circuit evaluation: `desc` is
only read when `version == 6`, and reading it while undefined raises
`NameError`. -/
def descCheck (version : Nat) (desc : Option String) (description : String) :
    Except String Bool :=
  if version = 4 then Except.ok true
  else if version = 6 then
    match desc with
    | Option.none => Except.error "NameError: name desc is not defined"
    | Option.some d => Except.ok (strContains d description)
  else Except.ok false

/-- The loop body of the price search for one item: `Except.ok Option.none`
when the item does not change `price_id`, `Except.ok (Option.some p)` when
the item matches and `price_id` is set to `item['prices'][0]['id']`,
`Except.error` when evaluating the body raises. -/
def matchPrice (category qstr : String) (version : Nat) (desc : Option String)
    (item : Item) : Except String (Option Int) :=
  if item.categoryCode = Option.some category ∧ item.capacity = qstr then
    match descCheck version desc item.description with
    | Except.error e => Except.error e
    | Except.ok true =>
      match item.prices with
      | [] => Except.error "IndexError: list index out of range"
      | p :: _ => Except.ok (Option.some p)
    | Except.ok false => Except.ok Option.none
  else Except.ok Option.none

/-- The `for item in package.getItems(...)` loop of `add_subnet`:
`price_id` starts as `None` and is overwritten by every matching item. -/
def priceLoop (category qstr : String) (version : Nat) (desc : Option String)
    (price_id : Option Int) : List Item → Except String (Option Int)
  | [] => Except.ok price_id
  | item :: rest =>
    match matchPrice category qstr version desc item with
    | Except.error e => Except.error e
    | Except.ok Option.none => priceLoop category qstr version desc price_id rest
    | Except.ok (Option.some p) => priceLoop category qstr version desc (Option.some p) rest

/-- Modelled from the spec: the spec sentence reads "selects the first item
whose category code matches and whose capacity equals the stringified
quantity ... picks that item first listed price identifier".  This is the
price search as the spec words it, returning at the first match; it is
compared against `priceLoop`, the price search the code performs. -/
def priceLoopFirst (category qstr : String) (version : Nat) (desc : Option String)
    (price_id : Option Int) : List Item → Except String (Option Int)
  | [] => Except.ok price_id
  | item :: rest =>
    match matchPrice category qstr version desc item with
    | Except.error e => Except.error e
    | Except.ok Option.none => priceLoopFirst category qstr version desc price_id rest
    | Except.ok (Option.some p) => Except.ok (Option.some p)

/-- The order payload built by `add_subnet`.  `endPointVlanId = Option.none`
models the key being absent; `Option.some v` models the key being present
with value `v` (the `vlan_id` argument, itself possibly `None`).
`complexType` is likewise an optional key. -/
structure Order where
  packageId : Int
  prices : List (Option Int)
  quantity : Int
  endPointVlanId : Option (Option Int)
  complexType : Option String
  deriving Repr, DecidableEq

/-- A remote call issued by `add_subnet`. -/
inductive RemoteCall where
  | productPackageGetItems (id : Int) (mask : String)
  | productOrderCall (op : String) (order : Order)
  deriving Repr, DecidableEq

/-- The outcome of a call to `add_subnet`: an uncaught Python exception, the
`None` sentinel, or the response of the single `Product_Order` call made. -/
inductive AddSubnetResult where
  | error (e : String)
  | nullResult
  | response (op : String) (order : Order)
  deriving Repr, DecidableEq

/-- Shallow embedding of `NetworkManager.add_subnet`.  `catalog` is the
remote response to `Product_Package.getItems(id=0, mask='mask[itemCategory]')`.
Returns the Python result together with the list of remote calls issued,
in order. -/
def add_subnet (ty : String) (quantity vlan_id : Option Int) (version : Nat)
    (test_order : Bool) (catalog : List Item) :
    AddSubnetResult × List RemoteCall :=
  let ps := subnetParams ty version quantity
  let qstr := pyStr ps.2.1
  match priceLoop ps.1 qstr version ps.2.2 Option.none catalog with
  | Except.error e => (AddSubnetResult.error e, [RemoteCall.productPackageGetItems 0 "mask[itemCategory]"])
  | Except.ok price_id =>
    let order : Order :=
      { packageId := 0
        prices := [price_id]
        quantity := 1
        endPointVlanId := if ty = "global" then Option.none else Option.some vlan_id
        complexType := Option.none }
    if price_id = Option.none ∨ price_id = Option.some 0 then
      (AddSubnetResult.nullResult, [RemoteCall.productPackageGetItems 0 "mask[itemCategory]"])
    else
      let op := if test_order then "verifyOrder" else "placeOrder"
      let order := { order with complexType := Option.some "SoftLayer_Container_Product_Order_Network_Subnet" }
      (AddSubnetResult.response op order,
       [RemoteCall.productPackageGetItems 0 "mask[itemCategory]",
        RemoteCall.productOrderCall op order])

/-- Concrete catalog item: matches category `sov_sec_ip_addresses_pub` at
capacity `"4"`, first price id 111. -/
def cItemA : Item :=
  ⟨Option.some "sov_sec_ip_addresses_pub", "4", "32 Portable Public IP Addresses", [111]⟩

/-- Concrete catalog item: also matches category `sov_sec_ip_addresses_pub`
at capacity `"4"`, first price id 222. -/
def cItemB : Item :=
  ⟨Option.some "sov_sec_ip_addresses_pub", "4", "32 Static Public IP Addresses", [222]⟩

/-- Concrete catalog item whose first price id is 0 (a Python-falsy id). -/
def cItemZero : Item :=
  ⟨Option.some "sov_sec_ip_addresses_pub", "4", "32 Portable Public IP Addresses", [0]⟩

/-- Concrete IPv6 catalog item: matches category `static_ipv6_addresses` at
capacity `"64"`. -/
def cItemV6 : Item :=
  ⟨Option.some "static_ipv6_addresses", "64", "/64 Block Static Public IPv6 Addresses", [333]⟩

/-- A datacenter record as nested under `vlan['primaryRouter']['datacenter']`. -/
structure Datacenter where
  name : String
  deriving Repr, DecidableEq

/-- A primary router record as nested under `vlan['primaryRouter']`. -/
structure PrimaryRouter where
  datacenter : Datacenter
  deriving Repr, DecidableEq

/-- A VLAN record as returned by `Account.getNetworkVlans` with the standard
VLAN mask; the related-object collections are kept as lists of opaque ids
since only their lengths are read. -/
structure Vlan where
  primaryRouter : PrimaryRouter
  hardware : List Nat
  networkComponents : List Nat
  totalPrimaryIpAddressCount : Int
  subnets : List Nat
  virtualGuests : List Nat
  deriving Repr, DecidableEq

/-- The per-datacenter counter record initialised and accumulated by
`summary_by_datacenter`. -/
structure DcCounts where
  hardwareCount : Nat
  networkingCount : Nat
  primaryIpCount : Int
  subnetCount : Nat
  virtualGuestCount : Nat
  vlanCount : Nat
  deriving Repr, DecidableEq

/-- The zero-initialised counter record inserted on first sight of a
datacenter name. -/
def zeroCounts : DcCounts :=
  { hardwareCount := 0, networkingCount := 0, primaryIpCount := 0,
    subnetCount := 0, virtualGuestCount := 0, vlanCount := 0 }

/-- Lookup in the `datacenters` dict, modelled as an association list. -/
def lookupDc (m : List (String × DcCounts)) (name : String) : Option DcCounts :=
  (m.find? (fun e => e.1 == name)).map (fun e => e.2)

/-- `datacenters[name] = c`: replace the entry for `name` in place, or append
a new one. -/
def setDc (m : List (String × DcCounts)) (name : String) (c : DcCounts) :
    List (String × DcCounts) :=
  match m with
  | [] => [(name, c)]
  | e :: rest => if e.1 = name then (name, c) :: rest else e :: setDc rest name c

/-- The six `+=` statements of the `summary_by_datacenter` loop body applied
to one counter record. -/
def bumpCounts (c : DcCounts) (v : Vlan) : DcCounts :=
  { hardwareCount := c.hardwareCount + v.hardware.length
    networkingCount := c.networkingCount + v.networkComponents.length
    primaryIpCount := c.primaryIpCount + v.totalPrimaryIpAddressCount
    subnetCount := c.subnetCount + v.subnets.length
    virtualGuestCount := c.virtualGuestCount + v.virtualGuests.length
    vlanCount := c.vlanCount + 1 }

/-- One iteration of the `for vlan in self._get_vlans()` loop. -/
def summaryStep (m : List (String × DcCounts)) (v : Vlan) :
    List (String × DcCounts) :=
  let name := v.primaryRouter.datacenter.name
  setDc m name (bumpCounts ((lookupDc m name).getD zeroCounts) v)

/-- Shallow embedding of `NetworkManager.summary_by_datacenter`; `vlans` is
the remote response to `Account.getNetworkVlans` with the standard mask. -/
def summary_by_datacenter (vlans : List Vlan) : List (String × DcCounts) :=
  vlans.foldl summaryStep []

/-- The example input from the spec: two VLANs in dal05 with hardware lists
of sizes 2 and 3, one VLAN in sjc01 with a hardware list of size 1. -/
def exampleVlans : List Vlan :=
  [⟨⟨⟨"dal05"⟩⟩, [1, 2], [], 0, [], []⟩,
   ⟨⟨⟨"dal05"⟩⟩, [3, 4, 5], [], 0, [], []⟩,
   ⟨⟨⟨"sjc01"⟩⟩, [6], [], 0, [], []⟩]

/-- Modelled from the spec: `NestedDict` from `SoftLayer.utils` is not under
src/.  Per the spec (section 3), a filter is "a nested mapping mirroring the
remote service filterable field hierarchy", with keys unique per nesting
level; a leaf holds a criterion value. -/
inductive FTree where
  | leaf (v : PyVal)
  | node (entries : List (String × FTree))

/-- First entry for key `k` in a nesting level. -/
def getEntry (es : List (String × FTree)) (k : String) : Option FTree :=
  match es with
  | [] => Option.none
  | e :: rest => if e.1 = k then Option.some e.2 else getEntry rest k

/-- Replace the entry for key `k` in place, or append a new one. -/
def setEntry (es : List (String × FTree)) (k : String) (t : FTree) :
    List (String × FTree) :=
  match es with
  | [] => [(k, t)]
  | e :: rest => if e.1 = k then (k, t) :: rest else e :: setEntry rest k t

/-- Read the subtree at a nested key path. -/
def getPath (f : FTree) : List String → Option FTree
  | [] => Option.some f
  | k :: ks =>
    match f with
    | FTree.leaf _ => Option.none
    | FTree.node es =>
      match getEntry es k with
      | Option.none => Option.none
      | Option.some c => getPath c ks

/-- Modelled from the spec: assignment through a chain of nested-dict
subscripts (`_filter[a][b][...] = v`), creating intermediate levels as
needed and overwriting the entry at the final key. -/
def setPath (f : FTree) : List String → FTree → FTree
  | [], t => t
  | k :: ks, t =>
    let es := match f with | FTree.leaf _ => [] | FTree.node es => es
    FTree.node (setEntry es k (setPath ((getEntry es k).getD (FTree.node [])) ks t))

/-- Do two key paths overlap, i.e. is one a prefix of the other? -/
def pathsOverlap : List String → List String → Bool
  | [], _ => true
  | _ :: _, [] => true
  | a :: p, b :: q => if a = b then pathsOverlap p q else false

/-- Modelled from the spec: `query_filter` from `SoftLayer.utils` is not
under src/; the spec delegates the filter encoding to the remote service, so
the wrapped criterion value is kept as an opaque leaf. -/
def query_filter (v : PyVal) : FTree :=
  FTree.leaf v

/-- Python truthiness of an optional integer argument (`None` and 0 are
falsy). -/
def truthyInt : Option Int → Bool
  | Option.none => false
  | Option.some n => n != 0

/-- Python truthiness of an optional string argument (`None` and the empty
string are falsy). -/
def truthyStr : Option String → Bool
  | Option.none => false
  | Option.some s => s != ""

/-- One conditional criterion line `if <flag>: _filter[<path>] = <value>`
of `list_vlans`/`list_subnets`: write `t` at path `p` when `b` is truthy,
leave the filter unchanged otherwise. -/
def applyIf (b : Bool) (p : List String) (t : FTree) (f : FTree) : FTree :=
  if b then setPath f p t else f

/-- Key path set by the `vlan_number` criterion in `list_vlans`. -/
def vlanNumberPath : List String :=
  ["networkVlans", "vlanNumber"]

/-- Key path set by the `datacenter` criterion in `list_vlans`. -/
def vlanDatacenterPath : List String :=
  ["networkVlans", "primaryRouter", "datacenter", "name"]

/-- The filter `list_vlans` sends to `Account.getNetworkVlans`: the caller
filter (or an empty one), then `vlanNumber` and `datacenter` criteria
written through nested subscripts when truthy. -/
def list_vlans_filter (datacenter : Option String) (vlan_number : Option Int)
    (filter : Option FTree) : FTree :=
  applyIf (truthyStr datacenter) vlanDatacenterPath
    (query_filter (PyVal.str ((datacenter).getD "")))
    (applyIf (truthyInt vlan_number) vlanNumberPath
      (query_filter (PyVal.int ((vlan_number).getD 0)))
      (filter.getD (FTree.node [])))

/-- Key path set by the `identifier` criterion in `list_subnets`. -/
def subnetIdentifierPath : List String :=
  ["subnets", "networkIdentifier"]

/-- Key path set by the `datacenter` criterion in `list_subnets`. -/
def subnetDatacenterPath : List String :=
  ["subnets", "datacenter", "name"]

/-- Key path set by the `version` criterion in `list_subnets`. -/
def subnetVersionPath : List String :=
  ["subnets", "version"]

/-- The filter `list_subnets` sends to `Account.getSubnets`: the caller
filter (or an empty one), then `identifier`, `datacenter` and `version`
criteria written through nested subscripts when truthy (`version` defaults
to 0, which is falsy). -/
def list_subnets_filter (identifier datacenter : Option String) (version : Int)
    (filter : Option FTree) : FTree :=
  applyIf (version != 0) subnetVersionPath (query_filter (PyVal.int version))
    (applyIf (truthyStr datacenter) subnetDatacenterPath
      (query_filter (PyVal.str ((datacenter).getD "")))
      (applyIf (truthyStr identifier) subnetIdentifierPath
        (query_filter (PyVal.str ((identifier).getD "")))
        (filter.getD (FTree.node []))))

/-- A caller-supplied filter that already holds an entry at the
`vlanNumber` criterion path. -/
def conflictFilter : FTree :=
  FTree.node [("networkVlans", FTree.node [("vlanNumber", FTree.leaf (PyVal.int 999))])]

/-- Python `str.isdigit` on an identifier string. -/
def isDigits (s : String) : Bool :=
  !s.isEmpty && s.toList.all Char.isDigit

/-- A value accepted as a subnet id: a Python int or a string. -/
inductive PyId where
  | num (n : Int)
  | str (s : String)
  deriving Repr, DecidableEq

/-- A remote call issued while running `get_subnet`. -/
inductive GetSubnetCall where
  | resolverListSubnets (identifier : String) (mask : String)
  | subnetGetObject (id : PyId) (mask : String)
  deriving Repr, DecidableEq

/-- Modelled from the spec: `resolve_ids`/`IdentifierMixin` from
`SoftLayer.utils` are not under src/.  Per the spec (sections 3 and 4.1), a
user-supplied value that is either a numeric id or an identifier string is
resolved to a numeric id via the registered lookup (here
`_get_subnet_by_identifier`, which lists subnets filtered by identifier
with mask `id`) if not already numeric; a numeric input skips the lookup.
Returns the resolved id list and the lookup calls made. -/
def resolve_ids (identifier : PyId) (resolver : String → List Int) :
    List PyId × List GetSubnetCall :=
  match identifier with
  | PyId.num n => ([PyId.num n], [])
  | PyId.str s =>
    if isDigits s then ([PyId.str s], [])
    else ((resolver s).map PyId.num, [GetSubnetCall.resolverListSubnets s "id"])

/-- The default subnet object mask built from `_get_subnet_mask()`. -/
def subnetMaskDefault : String :=
  "mask[hardware,datacenter,ipAddressCount,virtualGuests]"

/-- Shallow embedding of `NetworkManager.get_subnet`: optional resolver
lookup first, then `id = resolve_ids(id, self.subnet_resolvers)[0]` — the
`[0]` raises IndexError when the resolution yields no ids, in which case no
`Network_Subnet.getObject` fetch is made — then the fetch with the resolved
id and the default mask unless the caller supplied one.  Returns the
ordered call list and the uncaught exception, if any. -/
def get_subnet (id : PyId) (mask : Option String) (resolver : String → List Int) :
    List GetSubnetCall × Option String :=
  let m := mask.getD subnetMaskDefault
  let r := resolve_ids id resolver
  match r.1 with
  | [] => (r.2, Option.some "IndexError: list index out of range")
  | i :: _ => (r.2 ++ [GetSubnetCall.subnetGetObject i m], Option.none)

/-- The fetched subnet record consumed by `cancel_subnet`:
`subnet['billingItem']['id']` is present or the key is absent. -/
structure SubnetRecord where
  id : Int
  billingItem : Option Int
  deriving Repr, DecidableEq

/-- A remote call issued while running `cancel_subnet`. -/
inductive CancelCall where
  | fetchSubnet (id : PyId) (mask : String)
  | cancelService (billingId : Int)
  deriving Repr, DecidableEq

/-- Shallow embedding of `NetworkManager.cancel_subnet`: fetches the subnet
with mask `mask[id, billingItem.id]` (the `fetched` argument is the remote
response), reads `subnet['billingItem']['id']` (KeyError when the billing
item is absent), and calls `Billing_Item.cancelService` on that id.
Returns the ordered call list and the uncaught exception, if any. -/
def cancel_subnet (id : PyId) (fetched : SubnetRecord) :
    List CancelCall × Option String :=
  match fetched.billingItem with
  | Option.none =>
    ([CancelCall.fetchSubnet id "mask[id, billingItem.id]"], Option.some "KeyError: billingItem")
  | Option.some b =>
    ([CancelCall.fetchSubnet id "mask[id, billingItem.id]", CancelCall.cancelService b],
     Option.none)


theorem priceLoop_append (category qstr : String) (version : Nat) (desc : Option String)
    (acc : Option Int) (l₁ l₂ : List Item) :
    priceLoop category qstr version desc acc (l₁ ++ l₂) =
      match priceLoop category qstr version desc acc l₁ with
      | Except.error e => Except.error e
      | Except.ok a => priceLoop category qstr version desc a l₂ := by
  induction l₁ generalizing acc with
  | nil => simp [priceLoop]
  | cons i rest ih =>
    simp only [List.cons_append, priceLoop]
    rcases matchPrice category qstr version desc i with e | a
    · rfl
    · rcases a with _ | p
      · exact ih acc
      · exact ih (Option.some p)

theorem priceLoop_all_none (category qstr : String) (version : Nat) (desc : Option String)
    (acc : Option Int) (l : List Item)
    (h : ∀ j ∈ l, matchPrice category qstr version desc j = Except.ok Option.none) :
    priceLoop category qstr version desc acc l = Except.ok acc := by
  induction l with
  | nil => rfl
  | cons i rest ih =>
    have hi := h i (List.mem_cons_self i rest)
    simp only [priceLoop, hi]
    exact ih (fun j hj => h j (List.mem_cons_of_mem i hj))

theorem priceLoop_ok_exists (category qstr : String) (version : Nat) (desc : Option String)
    (acc : Option Int) (l : List Item)
    (h : ∀ j ∈ l, ∃ a, matchPrice category qstr version desc j = Except.ok a) :
    ∃ a, priceLoop category qstr version desc acc l = Except.ok a := by
  induction l generalizing acc with
  | nil => exact ⟨acc, rfl⟩
  | cons i rest ih =>
    obtain ⟨a, ha⟩ := h i (List.mem_cons_self i rest)
    have hrest := fun j hj => h j (List.mem_cons_of_mem i hj)
    rcases a with _ | p
    · simpa [priceLoop, ha] using ih acc hrest
    · simpa [priceLoop, ha] using ih (Option.some p) hrest

theorem priceLoop_error_of_mem (category qstr : String) (version : Nat) (desc : Option String)
    (acc : Option Int) (l : List Item) (E : String)
    (hall : ∀ j ∈ l, matchPrice category qstr version desc j = Except.ok Option.none ∨
      matchPrice category qstr version desc j = Except.error E)
    (hex : ∃ j ∈ l, matchPrice category qstr version desc j = Except.error E) :
    priceLoop category qstr version desc acc l = Except.error E := by
  induction l generalizing acc with
  | nil => obtain ⟨j, hj, _⟩ := hex; exact absurd hj (List.not_mem_nil j)
  | cons i rest ih =>
    rcases hall i (List.mem_cons_self i rest) with hi | hi
    · simp only [priceLoop, hi]
      obtain ⟨j, hj, hje⟩ := hex
      rcases List.mem_cons.mp hj with rfl | hj2
      · rw [hi] at hje; cases hje
      · exact ih acc (fun j hj => hall j (List.mem_cons_of_mem i hj)) ⟨j, hj2, hje⟩
    · simp only [priceLoop, hi]

/-- C1 counterexample: a catalog in which two items match the requested
category `sov_sec_ip_addresses_pub` at capacity `"4"`.  The spec-worded
first-match search yields the first item price id 111, but `add_subnet`
(whose loop overwrites `price_id` on every match) submits the order with
the second item price id 222. -/
theorem add_subnet_first_match_counterexample :
    matchPrice "sov_sec_ip_addresses_pub" "4" 4 Option.none cItemA = Except.ok (Option.some 111)
    ∧ matchPrice "sov_sec_ip_addresses_pub" "4" 4 Option.none cItemB = Except.ok (Option.some 222)
    ∧ priceLoopFirst "sov_sec_ip_addresses_pub" "4" 4 Option.none Option.none [cItemA, cItemB] =
        Except.ok (Option.some 111)
    ∧ priceLoop "sov_sec_ip_addresses_pub" "4" 4 Option.none Option.none [cItemA, cItemB] =
        Except.ok (Option.some 222)
    ∧ (add_subnet "public" (Option.some 4) (Option.some 9) 4 false [cItemA, cItemB]).1 =
        AddSubnetResult.response "placeOrder"
          ⟨0, [Option.some 222], 1, Option.some (Option.some 9),
           Option.some "SoftLayer_Container_Product_Order_Network_Subnet"⟩
    ∧ (222 : Int) ≠ 111 :=
  ⟨rfl, rfl, rfl, rfl, rfl, by decide⟩

/-- C1 (amended): when the catalog holds several matching items, the item
loop of `add_subnet` selects the price id of the LAST matching item, and
that id is the first element of that item price list: if the items before
`i` all evaluate without error, `i` matches the category and stringified
quantity (and passes the description check), and the items after `i` do
not match, the search returns the head of `i.prices`. -/
theorem add_subnet_selects_last_matching_item
    (category qstr : String) (version : Nat) (desc : Option String)
    (pre post : List Item) (i : Item) (p : Int) (r : List Int) (acc : Option Int)
    (hcat : i.categoryCode = Option.some category) (hcap : i.capacity = qstr)
    (hdesc : descCheck version desc i.description = Except.ok true)
    (hpr : i.prices = p :: r)
    (hpre : ∀ j ∈ pre, ∃ a, matchPrice category qstr version desc j = Except.ok a)
    (hpost : ∀ j ∈ post, matchPrice category qstr version desc j = Except.ok Option.none) :
    priceLoop category qstr version desc acc (pre ++ i :: post) =
      Except.ok (Option.some p) := by
  obtain ⟨a, ha⟩ := priceLoop_ok_exists category qstr version desc acc pre hpre
  have hi : matchPrice category qstr version desc i = Except.ok (Option.some p) := by
    simp [matchPrice, hcat, hcap, hdesc, hpr]
  rw [priceLoop_append, ha]
  simp only [priceLoop, hi]
  exact priceLoop_all_none category qstr version desc (Option.some p) post hpost

/-- Witness for C1 (amended) at the two-item catalog of the counterexample:
the last matching item price id 222 is selected. -/
theorem add_subnet_selects_last_matching_item_witness :
    priceLoop "sov_sec_ip_addresses_pub" "4" 4 Option.none Option.none [cItemA, cItemB] =
      Except.ok (Option.some 222) :=
  add_subnet_selects_last_matching_item "sov_sec_ip_addresses_pub" "4" 4 Option.none
    [cItemA] [] cItemB 222 [] Option.none rfl rfl rfl rfl
    (by intro j hj; rw [List.mem_singleton] at hj; subst hj; exact ⟨Option.some 111, rfl⟩)
    (by intro j hj; exact absurd hj (List.not_mem_nil j))

/-- C2: the category code, quantity override and description filter chosen
by `add_subnet` follow the fixed table: v4/global, v4/public, v4/other,
non-4/global, non-4/public, non-4/other. -/
theorem add_subnet_category_table (ty : String) (version : Nat) (q : Option Int) :
    subnetParams "global" 4 q = ("global_ipv4", Option.some 0, Option.none)
    ∧ subnetParams "public" 4 q = ("sov_sec_ip_addresses_pub", q, Option.none)
    ∧ (ty ≠ "global" → ty ≠ "public" →
        subnetParams ty 4 q = ("sov_sec_ip_addresses_priv", q, Option.none))
    ∧ (version ≠ 4 →
        subnetParams "global" version q = ("global_ipv6", Option.some 0, Option.some "Global"))
    ∧ (version ≠ 4 →
        subnetParams "public" version q = ("static_ipv6_addresses", q, Option.some "Portable"))
    ∧ (version ≠ 4 → ty ≠ "global" → ty ≠ "public" →
        subnetParams ty version q = ("static_ipv6_addresses", q, Option.none)) := by
  refine ⟨rfl, rfl, ?_, ?_, ?_, ?_⟩
  · intro h1 h2; simp [subnetParams, h1, h2]
  · intro hv; simp [subnetParams, hv]
  · intro hv; simp [subnetParams, hv]
  · intro hv h1 h2; simp [subnetParams, hv, h1, h2]

/-- Witness for C2 at type `"private"`, version 6, quantity 8. -/
theorem add_subnet_category_table_witness :
    subnetParams "private" 6 (Option.some 8) =
      ("static_ipv6_addresses", Option.some 8, Option.none) :=
  (add_subnet_category_table "private" 6 (Option.some 8)).2.2.2.2.2
    (by decide) (by decide) (by decide)

/-- C3: calling `add_subnet` with version 6 and a type that is neither
`"global"` nor `"public"` leaves the Python variable `desc` undefined;
whenever some catalog item matches category `static_ipv6_addresses` with
capacity equal to the stringified quantity, the matching step reads the
undefined variable and the call raises `NameError` instead of computing a
result. -/
theorem add_subnet_ipv6_other_desc_undefined
    (ty : String) (h1 : ty ≠ "global") (h2 : ty ≠ "public")
    (q vlan_id : Option Int) (t : Bool) (catalog : List Item)
    (hex : ∃ i ∈ catalog, i.categoryCode = Option.some "static_ipv6_addresses" ∧
      i.capacity = pyStr q) :
    (add_subnet ty q vlan_id 6 t catalog).1 =
      AddSubnetResult.error "NameError: name desc is not defined" := by
  have hps : subnetParams ty 6 q = ("static_ipv6_addresses", q, Option.none) := by
    simp [subnetParams, h1, h2]
  have hall : ∀ j ∈ catalog,
      matchPrice "static_ipv6_addresses" (pyStr q) 6 Option.none j = Except.ok Option.none ∨
      matchPrice "static_ipv6_addresses" (pyStr q) 6 Option.none j =
        Except.error "NameError: name desc is not defined" := by
    intro j _
    by_cases hc : j.categoryCode = Option.some "static_ipv6_addresses" ∧ j.capacity = pyStr q
    · right; simp [matchPrice, hc, descCheck]
    · left; simp [matchPrice, hc]
  have herr : ∃ j ∈ catalog,
      matchPrice "static_ipv6_addresses" (pyStr q) 6 Option.none j =
        Except.error "NameError: name desc is not defined" := by
    obtain ⟨i, hi, hprop⟩ := hex
    exact ⟨i, hi, by simp [matchPrice, hprop, descCheck]⟩
  have hloop := priceLoop_error_of_mem "static_ipv6_addresses" (pyStr q) 6 Option.none
    Option.none catalog "NameError: name desc is not defined" hall herr
  simp [add_subnet, hps, hloop]

/-- Witness for C3 at type `"private"`, quantity 64 and the one-item
catalog `[cItemV6]`. -/
theorem add_subnet_ipv6_other_desc_undefined_witness :
    (add_subnet "private" (Option.some 64) Option.none 6 false [cItemV6]).1 =
      AddSubnetResult.error "NameError: name desc is not defined" :=
  add_subnet_ipv6_other_desc_undefined "private" (by decide) (by decide)
    (Option.some 64) Option.none false [cItemV6]
    ⟨cItemV6, List.mem_singleton.mpr rfl, rfl, rfl⟩

/-- C4 counterexample: a catalog whose single matching item has first price
id 0.  The price search finds the matching price, but the guard
`if not price_id` treats the id 0 as falsy, so `add_subnet` returns the
`None` sentinel and invokes no `Product_Order` operation at all. -/
theorem add_subnet_zero_price_counterexample :
    priceLoop "sov_sec_ip_addresses_pub" "4" 4 Option.none Option.none [cItemZero] =
      Except.ok (Option.some 0)
    ∧ add_subnet "public" (Option.some 4) (Option.some 9) 4 false [cItemZero] =
        (AddSubnetResult.nullResult, [RemoteCall.productPackageGetItems 0 "mask[itemCategory]"]) :=
  ⟨rfl, rfl⟩

/-- C4 (amended): whenever the price search finds a matching price with a
nonzero id `p`, `add_subnet` submits an order with `packageId` 0, the one
price entry `p`, quantity 1, the fixed complex type, and `endPointVlanId`
present (set to `vlan_id`) iff the type is not `"global"`; the operation is
`verifyOrder` when `test_order` is set and `placeOrder` otherwise. -/
theorem add_subnet_order_payload
    (ty : String) (q vlan_id : Option Int) (version : Nat) (t : Bool)
    (catalog : List Item) (p : Int) (hp : p ≠ 0)
    (hfind : priceLoop (subnetParams ty version q).1 (pyStr (subnetParams ty version q).2.1)
      version (subnetParams ty version q).2.2 Option.none catalog = Except.ok (Option.some p)) :
    add_subnet ty q vlan_id version t catalog =
      (AddSubnetResult.response (if t then "verifyOrder" else "placeOrder")
         ⟨0, [Option.some p], 1,
          if ty = "global" then Option.none else Option.some vlan_id,
          Option.some "SoftLayer_Container_Product_Order_Network_Subnet"⟩,
       [RemoteCall.productPackageGetItems 0 "mask[itemCategory]",
        RemoteCall.productOrderCall (if t then "verifyOrder" else "placeOrder")
          ⟨0, [Option.some p], 1,
           if ty = "global" then Option.none else Option.some vlan_id,
           Option.some "SoftLayer_Container_Product_Order_Network_Subnet"⟩]) := by
  simp [add_subnet, hfind, hp]

/-- Witness for C4 (amended): type `"public"`, version 4, quantity 4, vlan
id 9, real order, one matching item with price id 111. -/
theorem add_subnet_order_payload_witness :
    add_subnet "public" (Option.some 4) (Option.some 9) 4 false [cItemA] =
      (AddSubnetResult.response "placeOrder"
         ⟨0, [Option.some 111], 1, Option.some (Option.some 9),
          Option.some "SoftLayer_Container_Product_Order_Network_Subnet"⟩,
       [RemoteCall.productPackageGetItems 0 "mask[itemCategory]",
        RemoteCall.productOrderCall "placeOrder"
          ⟨0, [Option.some 111], 1, Option.some (Option.some 9),
           Option.some "SoftLayer_Container_Product_Order_Network_Subnet"⟩]) :=
  add_subnet_order_payload "public" (Option.some 4) (Option.some 9) 4 false
    [cItemA] 111 (by decide) rfl

/-- C5: when every catalog item evaluates to a non-match for the requested
category, stringified quantity and (for version 6) description filter,
`add_subnet` returns the `None` sentinel, raises no error, and its only
remote call is the catalog query. -/
theorem add_subnet_no_match_returns_null
    (ty : String) (q vlan_id : Option Int) (version : Nat) (t : Bool) (catalog : List Item)
    (h : ∀ i ∈ catalog,
      matchPrice (subnetParams ty version q).1 (pyStr (subnetParams ty version q).2.1)
        version (subnetParams ty version q).2.2 i = Except.ok Option.none) :
    add_subnet ty q vlan_id version t catalog =
      (AddSubnetResult.nullResult, [RemoteCall.productPackageGetItems 0 "mask[itemCategory]"]) := by
  have hloop := priceLoop_all_none (subnetParams ty version q).1
    (pyStr (subnetParams ty version q).2.1) version (subnetParams ty version q).2.2
    Option.none catalog h
  simp [add_subnet, hloop]

/-- Witness for C5: a v4 public request over a catalog holding only an IPv6
item, which does not match. -/
theorem add_subnet_no_match_returns_null_witness :
    add_subnet "public" (Option.some 4) (Option.some 9) 4 false [cItemV6] =
      (AddSubnetResult.nullResult, [RemoteCall.productPackageGetItems 0 "mask[itemCategory]"]) :=
  add_subnet_no_match_returns_null "public" (Option.some 4) (Option.some 9) 4 false [cItemV6]
    (by intro i hi; rw [List.mem_singleton] at hi; subst hi; rfl)

/-- C6: whenever `add_subnet` returns the `None` sentinel, no
`Product_Order` operation is invoked at all; the only remote call made in
that run is the single catalog query. -/
theorem add_subnet_null_makes_no_order_call
    (ty : String) (q vlan_id : Option Int) (version : Nat) (t : Bool) (catalog : List Item)
    (h : (add_subnet ty q vlan_id version t catalog).1 = AddSubnetResult.nullResult) :
    (add_subnet ty q vlan_id version t catalog).2 =
      [RemoteCall.productPackageGetItems 0 "mask[itemCategory]"] := by
  rcases hpl : priceLoop (subnetParams ty version q).1 (pyStr (subnetParams ty version q).2.1)
      version (subnetParams ty version q).2.2 Option.none catalog with e | a
  · simp [add_subnet, hpl] at h
  · by_cases hg : a = Option.none ∨ a = Option.some 0
    · simp [add_subnet, hpl, hg]
    · simp [add_subnet, hpl, hg] at h

/-- Witness for C6 at the empty catalog, where `add_subnet` returns the
`None` sentinel. -/
theorem add_subnet_null_makes_no_order_call_witness :
    (add_subnet "public" (Option.some 4) (Option.some 9) 4 false []).2 =
      [RemoteCall.productPackageGetItems 0 "mask[itemCategory]"] :=
  add_subnet_null_makes_no_order_call "public" (Option.some 4) (Option.some 9) 4 false [] rfl

theorem find_setDc_self (m : List (String × DcCounts)) (name : String) (c : DcCounts) :
    List.find? (fun e => e.1 == name) (setDc m name c) = Option.some (name, c) := by
  induction m with
  | nil => simp [setDc]
  | cons e rest ih =>
    by_cases he : e.1 = name
    · simp [setDc, he]
    · rw [setDc, if_neg he, List.find?_cons_of_neg _ (by simp [he])]
      exact ih

theorem find_setDc_ne (m : List (String × DcCounts)) (name k : String) (c : DcCounts)
    (h : k ≠ name) :
    List.find? (fun e => e.1 == k) (setDc m name c) =
      List.find? (fun e => e.1 == k) m := by
  induction m with
  | nil => rw [setDc, List.find?_cons_of_neg _ (by simp [Ne.symm h])]
  | cons e rest ih =>
    by_cases he : e.1 = name
    · rw [setDc, if_pos he, List.find?_cons_of_neg _ (by simp [Ne.symm h]),
        List.find?_cons_of_neg _ (by simp [he, Ne.symm h])]
    · rw [setDc, if_neg he]
      by_cases hk : e.1 = k
      · rw [List.find?_cons_of_pos _ (by simp [hk]), List.find?_cons_of_pos _ (by simp [hk])]
      · rw [List.find?_cons_of_neg _ (by simp [hk]), List.find?_cons_of_neg _ (by simp [hk])]
        exact ih

theorem lookupDc_setDc_self (m : List (String × DcCounts)) (name : String) (c : DcCounts) :
    lookupDc (setDc m name c) name = Option.some c := by
  rw [lookupDc, find_setDc_self]
  rfl

theorem lookupDc_setDc_ne (m : List (String × DcCounts)) (name k : String) (c : DcCounts)
    (h : k ≠ name) : lookupDc (setDc m name c) k = lookupDc m k := by
  rw [lookupDc, find_setDc_ne m name k c h, lookupDc]

theorem lookupDc_summary_foldl (vlans : List Vlan) (m : List (String × DcCounts))
    (name : String) :
    (lookupDc (vlans.foldl summaryStep m) name).isSome = true ↔
      (lookupDc m name).isSome = true ∨
        ∃ v ∈ vlans, v.primaryRouter.datacenter.name = name := by
  induction vlans generalizing m with
  | nil => simp
  | cons v rest ih =>
    rw [List.foldl_cons, ih]
    by_cases hv : v.primaryRouter.datacenter.name = name
    · subst hv
      simp [summaryStep, lookupDc_setDc_self]
    · have hstep : lookupDc (summaryStep m v) name = lookupDc m name :=
        lookupDc_setDc_ne m v.primaryRouter.datacenter.name name _ (Ne.symm hv)
      rw [summaryStep] at hstep
      rw [summaryStep, hstep]
      constructor
      · rintro (hm | ⟨w, hw, hwn⟩)
        · exact Or.inl hm
        · exact Or.inr ⟨w, List.mem_cons_of_mem v hw, hwn⟩
      · rintro (hm | ⟨w, hw, hwn⟩)
        · exact Or.inl hm
        · rcases List.mem_cons.mp hw with rfl | hw2
          · exact absurd hwn hv
          · exact Or.inr ⟨w, hw2, hwn⟩

/-- C7: on the spec example (two dal05 VLANs with hardware lists of sizes 2
and 3, one sjc01 VLAN with a hardware list of size 1),
`summary_by_datacenter` maps dal05 to hardwareCount 5 and vlanCount 2 and
sjc01 to hardwareCount 1 and vlanCount 1; and in general a datacenter name
is a key of the result iff at least one returned VLAN resides in it. -/
theorem summary_by_datacenter_spec (vlans : List Vlan) (name : String) :
    lookupDc (summary_by_datacenter exampleVlans) "dal05" = Option.some ⟨5, 0, 0, 0, 0, 2⟩
    ∧ lookupDc (summary_by_datacenter exampleVlans) "sjc01" = Option.some ⟨1, 0, 0, 0, 0, 1⟩
    ∧ ((lookupDc (summary_by_datacenter vlans) name).isSome = true ↔
        ∃ v ∈ vlans, v.primaryRouter.datacenter.name = name) := by
  refine ⟨rfl, rfl, ?_⟩
  rw [summary_by_datacenter, lookupDc_summary_foldl]
  simp [lookupDc]

/-- Witness for C7: dal05 is a key of the example summary, and indeed some
example VLAN resides in dal05. -/
theorem summary_by_datacenter_spec_witness :
    (lookupDc (summary_by_datacenter exampleVlans) "dal05").isSome = true ↔
      ∃ v ∈ exampleVlans, v.primaryRouter.datacenter.name = "dal05" :=
  (summary_by_datacenter_spec exampleVlans "dal05").2.2

/-- C8: `get_subnet` with a non-numeric identifier string first issues the
registered subnet-by-identifier lookup and then fetches with the first
resolved id; with a numeric id the lookup is skipped and the fetch uses the
id directly (default mask applied unless the caller supplies one).  When
the lookup resolves to no ids, the `[0]` indexing raises and no fetch call
is made. -/
theorem get_subnet_resolution (n : Int) (s : String) (mask : Option String)
    (resolver : String → List Int) (hs : isDigits s = false) :
    get_subnet (PyId.num n) mask resolver =
      ([GetSubnetCall.subnetGetObject (PyId.num n) (mask.getD subnetMaskDefault)],
       Option.none)
    ∧ (∀ k ks, resolver s = k :: ks →
        get_subnet (PyId.str s) mask resolver =
          ([GetSubnetCall.resolverListSubnets s "id",
            GetSubnetCall.subnetGetObject (PyId.num k) (mask.getD subnetMaskDefault)],
           Option.none))
    ∧ (resolver s = [] →
        get_subnet (PyId.str s) mask resolver =
          ([GetSubnetCall.resolverListSubnets s "id"],
           Option.some "IndexError: list index out of range")) := by
  refine ⟨rfl, ?_, ?_⟩
  · intro k ks hr
    simp [get_subnet, resolve_ids, hs, hr]
  · intro hr
    simp [get_subnet, resolve_ids, hs, hr]

/-- Witness for C8: a numeric id 42 skips resolution; the non-numeric
identifier string resolves to subnet id 77 before the fetch. -/
theorem get_subnet_resolution_witness :
    get_subnet (PyId.num 42) Option.none (fun _ => [77]) =
      ([GetSubnetCall.subnetGetObject (PyId.num 42) subnetMaskDefault], Option.none)
    ∧ get_subnet (PyId.str "abc") Option.none (fun _ => [77]) =
      ([GetSubnetCall.resolverListSubnets "abc" "id",
        GetSubnetCall.subnetGetObject (PyId.num 77) subnetMaskDefault], Option.none) :=
  ⟨(get_subnet_resolution 42 "abc" Option.none (fun _ => [77]) rfl).1,
   (get_subnet_resolution 42 "abc" Option.none (fun _ => [77]) rfl).2.1 77 [] rfl⟩

/-- C10: `cancel_subnet` first fetches the subnet with mask
`mask[id, billingItem.id]`; when the fetched record carries a billing item
id `b` it invokes `cancelService` with exactly `b`; when the billing item
is absent the missing-key error propagates uncaught and no cancellation
call is made. -/
theorem cancel_subnet_spec (id : PyId) (r : SubnetRecord) :
    (cancel_subnet id r).1.head? =
      Option.some (CancelCall.fetchSubnet id "mask[id, billingItem.id]")
    ∧ (∀ b, r.billingItem = Option.some b →
        cancel_subnet id r =
          ([CancelCall.fetchSubnet id "mask[id, billingItem.id]",
            CancelCall.cancelService b], Option.none))
    ∧ (r.billingItem = Option.none →
        cancel_subnet id r =
          ([CancelCall.fetchSubnet id "mask[id, billingItem.id]"],
           Option.some "KeyError: billingItem")) := by
  refine ⟨?_, ?_, ?_⟩
  · rcases hb : r.billingItem with _ | b <;> simp [cancel_subnet, hb]
  · intro b hb
    simp [cancel_subnet, hb]
  · intro hb
    simp [cancel_subnet, hb]

/-- Witness for C10: a fetched subnet with billing item id 123 leads to a
`cancelService` call on exactly 123. -/
theorem cancel_subnet_spec_witness :
    cancel_subnet (PyId.num 5) ⟨5, Option.some 123⟩ =
      ([CancelCall.fetchSubnet (PyId.num 5) "mask[id, billingItem.id]",
        CancelCall.cancelService 123], Option.none) :=
  (cancel_subnet_spec (PyId.num 5) ⟨5, Option.some 123⟩).2.1 123 rfl

theorem getEntry_setEntry_self (es : List (String × FTree)) (k : String) (t : FTree) :
    getEntry (setEntry es k t) k = Option.some t := by
  induction es with
  | nil => simp [setEntry, getEntry]
  | cons e rest ih =>
    by_cases he : e.1 = k
    · simp [setEntry, getEntry, he]
    · simpa [setEntry, getEntry, he] using ih

theorem getEntry_setEntry_ne (es : List (String × FTree)) (k k2 : String) (t : FTree)
    (h : k2 ≠ k) : getEntry (setEntry es k t) k2 = getEntry es k2 := by
  induction es with
  | nil => simp [setEntry, getEntry, Ne.symm h]
  | cons e rest ih =>
    by_cases he : e.1 = k
    · simp [setEntry, getEntry, he, Ne.symm h]
    · by_cases hk : e.1 = k2 <;> simp [setEntry, getEntry, he, hk, ih, h]

theorem getPath_node_nil (p : List String) (h : p ≠ []) :
    getPath (FTree.node []) p = Option.none := by
  cases p with
  | nil => exact absurd rfl h
  | cons k ks => simp [getPath, getEntry]

theorem getPath_setPath_self (p : List String) (f t : FTree) :
    getPath (setPath f p t) p = Option.some t := by
  induction p generalizing f with
  | nil => rfl
  | cons k ks ih =>
    cases f with
    | leaf v => simp only [setPath, getPath, getEntry_setEntry_self]; exact ih _
    | node es => simp only [setPath, getPath, getEntry_setEntry_self]; exact ih _

theorem getPath_setPath_disjoint (p q : List String) (f t : FTree)
    (h : pathsOverlap p q = false) :
    getPath (setPath f q t) p = getPath f p := by
  induction p generalizing q f with
  | nil => simp [pathsOverlap] at h
  | cons a as ih =>
    cases q with
    | nil => simp [pathsOverlap] at h
    | cons b bs =>
      by_cases hab : a = b
      · subst hab
        rw [pathsOverlap, if_pos rfl] at h
        have has : as ≠ [] := by
          intro hnil
          rw [hnil, pathsOverlap] at h
          cases h
        cases f with
        | leaf v =>
          simp only [setPath, getPath, getEntry_setEntry_self]
          rw [ih bs _ h]
          exact getPath_node_nil as has
        | node es =>
          simp only [setPath, getPath, getEntry_setEntry_self]
          rw [ih bs _ h]
          cases hge : getEntry es a with
          | none => simp [hge, getPath_node_nil as has]
          | some c => simp [hge]
      · cases f with
        | leaf v =>
          simp only [setPath, getPath, getEntry_setEntry_ne _ _ _ _ hab]
          simp [getEntry]
        | node es =>
          simp only [setPath, getPath, getEntry_setEntry_ne _ _ _ _ hab]

theorem getPath_applyIf_true (b : Bool) (p : List String) (t f : FTree) (hb : b = true) :
    getPath (applyIf b p t f) p = Option.some t := by
  rw [applyIf, hb, if_pos rfl]
  exact getPath_setPath_self p f t

theorem applyIf_false (b : Bool) (p : List String) (t f : FTree) (hb : b = false) :
    applyIf b p t f = f := by
  rw [applyIf, hb]
  rfl

theorem getPath_applyIf_disjoint (b : Bool) (p q : List String) (t f : FTree)
    (h : pathsOverlap p q = false) :
    getPath (applyIf b q t f) p = getPath f p := by
  cases b with
  | false => rw [applyIf_false _ _ _ _ rfl]
  | true => rw [applyIf, if_pos rfl]; exact getPath_setPath_disjoint p q f t h

/-- C9 counterexample: a caller-supplied filter already holding an entry at
`networkVlans.vlanNumber` together with a supplied `vlan_number` criterion.
The criterion overwrites the caller entry, so the filter sent to the
remote service no longer contains the caller entry. -/
theorem list_vlans_filter_overwrites_caller_entry :
    getPath conflictFilter vlanNumberPath = Option.some (FTree.leaf (PyVal.int 999))
    ∧ getPath (list_vlans_filter Option.none (Option.some 42) (Option.some conflictFilter))
        vlanNumberPath = Option.some (FTree.leaf (PyVal.int 42))
    ∧ FTree.leaf (PyVal.int 42) ≠ FTree.leaf (PyVal.int 999) := by
  refine ⟨rfl, rfl, ?_⟩
  intro hcontra
  injection hcontra with h1
  injection h1 with h2
  exact absurd h2 (by decide)

/-- C9 (amended): the filters built by `list_vlans` and `list_subnets`
contain every criteria-derived entry; every caller-supplied leaf entry
whose path does not overlap a criterion path is preserved; caller entries
at a criterion path are overwritten by that criterion; and for every
criterion left unsupplied (Python-falsy) the corresponding path is exactly
as the caller left it, so no filter key is added for it. -/
theorem list_filters_merge
    (f g : FTree) (p pq : List String) (v w : PyVal)
    (vn : Option Int) (dc ident dc2 : Option String) (ver : Int) :
    (getPath f p = Option.some (FTree.leaf v) →
      pathsOverlap p vlanNumberPath = false →
      pathsOverlap p vlanDatacenterPath = false →
      getPath (list_vlans_filter dc vn (Option.some f)) p = Option.some (FTree.leaf v))
    ∧ (truthyInt vn = true →
        getPath (list_vlans_filter dc vn (Option.some f)) vlanNumberPath =
          Option.some (query_filter (PyVal.int (vn.getD 0))))
    ∧ (truthyStr dc = true →
        getPath (list_vlans_filter dc vn (Option.some f)) vlanDatacenterPath =
          Option.some (query_filter (PyVal.str (dc.getD ""))))
    ∧ (truthyInt vn = false →
        getPath (list_vlans_filter dc vn (Option.some f)) vlanNumberPath =
          getPath f vlanNumberPath)
    ∧ (truthyStr dc = false →
        getPath (list_vlans_filter dc vn (Option.some f)) vlanDatacenterPath =
          getPath f vlanDatacenterPath)
    ∧ (getPath g pq = Option.some (FTree.leaf w) →
        pathsOverlap pq subnetIdentifierPath = false →
        pathsOverlap pq subnetDatacenterPath = false →
        pathsOverlap pq subnetVersionPath = false →
        getPath (list_subnets_filter ident dc2 ver (Option.some g)) pq =
          Option.some (FTree.leaf w))
    ∧ (truthyStr ident = true →
        getPath (list_subnets_filter ident dc2 ver (Option.some g)) subnetIdentifierPath =
          Option.some (query_filter (PyVal.str (ident.getD ""))))
    ∧ (truthyStr dc2 = true →
        getPath (list_subnets_filter ident dc2 ver (Option.some g)) subnetDatacenterPath =
          Option.some (query_filter (PyVal.str (dc2.getD ""))))
    ∧ (ver ≠ 0 →
        getPath (list_subnets_filter ident dc2 ver (Option.some g)) subnetVersionPath =
          Option.some (query_filter (PyVal.int ver)))
    ∧ (truthyStr ident = false →
        getPath (list_subnets_filter ident dc2 ver (Option.some g)) subnetIdentifierPath =
          getPath g subnetIdentifierPath)
    ∧ (truthyStr dc2 = false →
        getPath (list_subnets_filter ident dc2 ver (Option.some g)) subnetDatacenterPath =
          getPath g subnetDatacenterPath)
    ∧ (ver = 0 →
        getPath (list_subnets_filter ident dc2 ver (Option.some g)) subnetVersionPath =
          getPath g subnetVersionPath) := by
  refine ⟨?_, ?_, ?_, ?_, ?_, ?_, ?_, ?_, ?_, ?_, ?_, ?_⟩
  · intro h hp1 hp2
    rw [list_vlans_filter, getPath_applyIf_disjoint _ _ _ _ _ hp2,
      getPath_applyIf_disjoint _ _ _ _ _ hp1]
    exact h
  · intro h1
    rw [list_vlans_filter, getPath_applyIf_disjoint _ _ _ _ _ (by decide),
      getPath_applyIf_true _ _ _ _ h1]
  · intro h2
    rw [list_vlans_filter, getPath_applyIf_true _ _ _ _ h2]
  · intro h1
    rw [list_vlans_filter, getPath_applyIf_disjoint _ _ _ _ _ (by decide),
      applyIf_false _ _ _ _ h1]
    rfl
  · intro h2
    rw [list_vlans_filter, applyIf_false _ _ _ _ h2,
      getPath_applyIf_disjoint _ _ _ _ _ (by decide)]
    rfl
  · intro h hp1 hp2 hp3
    rw [list_subnets_filter, getPath_applyIf_disjoint _ _ _ _ _ hp3,
      getPath_applyIf_disjoint _ _ _ _ _ hp2, getPath_applyIf_disjoint _ _ _ _ _ hp1]
    exact h
  · intro h1
    rw [list_subnets_filter, getPath_applyIf_disjoint _ _ _ _ _ (by decide),
      getPath_applyIf_disjoint _ _ _ _ _ (by decide), getPath_applyIf_true _ _ _ _ h1]
  · intro h2
    rw [list_subnets_filter, getPath_applyIf_disjoint _ _ _ _ _ (by decide),
      getPath_applyIf_true _ _ _ _ h2]
  · intro h3
    rw [list_subnets_filter, getPath_applyIf_true _ _ _ _ (by simpa using h3)]
  · intro h1
    rw [list_subnets_filter, getPath_applyIf_disjoint _ _ _ _ _ (by decide),
      getPath_applyIf_disjoint _ _ _ _ _ (by decide), applyIf_false _ _ _ _ h1]
    rfl
  · intro h2
    rw [list_subnets_filter, getPath_applyIf_disjoint _ _ _ _ _ (by decide),
      applyIf_false _ _ _ _ h2, getPath_applyIf_disjoint _ _ _ _ _ (by decide)]
    rfl
  · intro h3
    rw [list_subnets_filter, applyIf_false _ _ _ _ (by simp [h3]),
      getPath_applyIf_disjoint _ _ _ _ _ (by decide),
      getPath_applyIf_disjoint _ _ _ _ _ (by decide)]
    rfl

/-- Witness for C9 (amended): concrete filters exercising a preserved
caller entry, both supplied criteria of `list_vlans`, an unsupplied
`vlan_number`, a supplied subnet `version`, and an unsupplied subnet
`version`. -/
theorem list_filters_merge_witness :
    getPath (list_vlans_filter (Option.some "dal05") (Option.some 5)
        (Option.some (FTree.node [("accountId", FTree.leaf (PyVal.int 1))])))
      ["accountId"] = Option.some (FTree.leaf (PyVal.int 1))
    ∧ getPath (list_vlans_filter (Option.some "dal05") (Option.some 5)
        (Option.some (FTree.node [("accountId", FTree.leaf (PyVal.int 1))])))
      vlanNumberPath = Option.some (query_filter (PyVal.int 5))
    ∧ getPath (list_vlans_filter (Option.some "dal05") (Option.some 5)
        (Option.some (FTree.node [("accountId", FTree.leaf (PyVal.int 1))])))
      vlanDatacenterPath = Option.some (query_filter (PyVal.str "dal05"))
    ∧ getPath (list_vlans_filter Option.none Option.none
        (Option.some (FTree.node []))) vlanNumberPath =
      getPath (FTree.node []) vlanNumberPath
    ∧ getPath (list_subnets_filter (Option.some "10.0.0.0") (Option.some "sjc01") 6
        (Option.some (FTree.node []))) subnetVersionPath =
      Option.some (query_filter (PyVal.int 6))
    ∧ getPath (list_subnets_filter Option.none Option.none 0
        (Option.some (FTree.node []))) subnetVersionPath =
      getPath (FTree.node []) subnetVersionPath :=
  ⟨(list_filters_merge (FTree.node [("accountId", FTree.leaf (PyVal.int 1))])
      (FTree.node []) ["accountId"] [] (PyVal.int 1) (PyVal.int 0)
      (Option.some 5) (Option.some "dal05") Option.none Option.none 0).1 rfl rfl rfl,
   (list_filters_merge (FTree.node [("accountId", FTree.leaf (PyVal.int 1))])
      (FTree.node []) ["accountId"] [] (PyVal.int 1) (PyVal.int 0)
      (Option.some 5) (Option.some "dal05") Option.none Option.none 0).2.1 rfl,
   (list_filters_merge (FTree.node [("accountId", FTree.leaf (PyVal.int 1))])
      (FTree.node []) ["accountId"] [] (PyVal.int 1) (PyVal.int 0)
      (Option.some 5) (Option.some "dal05") Option.none Option.none 0).2.2.1 rfl,
   (list_filters_merge (FTree.node []) (FTree.node []) [] [] (PyVal.int 0) (PyVal.int 0)
      Option.none Option.none Option.none Option.none 0).2.2.2.1 rfl,
   (list_filters_merge (FTree.node []) (FTree.node []) [] [] (PyVal.int 0) (PyVal.int 0)
      Option.none Option.none (Option.some "10.0.0.0") (Option.some "sjc01")
      6).2.2.2.2.2.2.2.2.1 (by decide),
   (list_filters_merge (FTree.node []) (FTree.node []) [] [] (PyVal.int 0) (PyVal.int 0)
      Option.none Option.none Option.none Option.none 0).2.2.2.2.2.2.2.2.2.2.2 rfl⟩

end SLNetwork
